import Mathlib

/-!
Verification of `torch::nn::FunctionalImpl` (src/torch/csrc/api/include/torch/nn/modules/functional.h).

The header declares a module wrapping a unary tensor-to-tensor function:
a single member `function_ : std::function<Tensor(Tensor)>`, a constructor
taking that function, a no-op `reset`, a `forward` applying the stored
function, a call operator delegating to `forward`, a `pretty_print`
emitting a fixed label, and `is_serializable` returning a fixed answer.
Only the declarations are under src; the method bodies are modelled from
the spec, as marked on each definition.
-/

namespace TorchNN

/-- Modelled from the spec: the tensor value type is an opaque numeric
array owned by the host ML runtime (the type `torch::Tensor` is not under
src). It is modelled as a single rational scalar value, which suffices for
every example in the spec. -/
structure Tensor where
  val : Rat
deriving DecidableEq

/-- Modelled from the spec: the failure a wrapped callable may raise, plus
the standard failure of calling an empty `std::function`
(`std::bad_function_call`, part of the C++ runtime, not under src). -/
inductive TorchError where
  | badFunctionCall : TorchError
  | wrapped : String → TorchError
deriving DecidableEq

/-- A callable with the single-input single-output tensor signature of
`std::function<Tensor(Tensor)>`; it may fail when invoked. -/
abbrev Callable : Type := Tensor → Except TorchError Tensor

/-- The `FunctionalImpl` module state: exactly one `std::function` member,
mirroring `function_` declared at functional.h line 76. A C++
`std::function` value can be empty (null); `none` models the empty
function. The structure constructor `FunctionalImpl.mk` models the C++
constructor at line 60, which (per the spec) performs no validation
beyond type conformance and stores whatever function object it is given. -/
structure FunctionalImpl where
  function_ : Option Callable

/-- Modelled from the spec: the body of `FunctionalImpl::forward` is not
under src (only its declaration, functional.h lines 67 to 68). It applies
the stored transformation to the input and returns its result unchanged;
invoking an empty `std::function` raises `std::bad_function_call`. -/
def FunctionalImpl.forward (m : FunctionalImpl) (input : Tensor) :
    Except TorchError Tensor :=
  match m.function_ with
  | none => Except.error TorchError.badFunctionCall
  | some f => f input

/-- Modelled from the spec: `forward` is a pure forwarding call with no
side effect on the wrapper itself. This variant returns the wrapper state
after the call alongside the result, so that state preservation can be
stated; the modelled body assigns to no member. -/
def FunctionalImpl.forwardState (m : FunctionalImpl) (input : Tensor) :
    FunctionalImpl × Except TorchError Tensor :=
  (m, m.forward input)

/-- Modelled from the spec: the body of the call operator is not under
src; its declaration (functional.h lines 70 to 71) documents that it calls
`forward(input)`. -/
def FunctionalImpl.callOperator (m : FunctionalImpl) (input : Tensor) :
    Except TorchError Tensor :=
  m.forward input

/-- Modelled from the spec: the body of `FunctionalImpl::reset` is not
under src (declaration at functional.h line 62). There is no internal
state to reinitialize, so it is a guaranteed-success no-op. -/
def FunctionalImpl.reset (m : FunctionalImpl) : FunctionalImpl := m

/-- Modelled from the spec: the body of `FunctionalImpl::pretty_print` is
not under src (declaration at functional.h lines 64 to 65). It writes a
short fixed human-readable label identifying the module as a
function-wrapping module; the label does not depend on the instance. -/
def FunctionalImpl.pretty_print (_ : FunctionalImpl) : String :=
  "torch::nn::Functional()"

/-- Modelled from the spec: the body of `FunctionalImpl::is_serializable`
is not under src (declaration at functional.h line 73). It reports the
fixed answer false, regardless of which callable was bound. -/
def FunctionalImpl.is_serializable (_ : FunctionalImpl) : Bool := false

/-- An operation that can be performed on a constructed wrapper. -/
inductive Op where
  | resetOp : Op
  | invoke : Tensor → Op
  | describe : Op
  | queryFlag : Op

/-- Applies one operation to the wrapper, returning the wrapper state
after the call. `describe` and `queryFlag` are const member functions in
the header and cannot modify the state. -/
def FunctionalImpl.applyOp (m : FunctionalImpl) : Op → FunctionalImpl
  | Op.resetOp => m.reset
  | Op.invoke x => (m.forwardState x).1
  | Op.describe => m
  | Op.queryFlag => m

/-- Runs a sequence of operations starting from a wrapper state. -/
def FunctionalImpl.runOps (m : FunctionalImpl) : List Op → FunctionalImpl
  | [] => m
  | op :: ops => (m.applyOp op).runOps ops

/-- The multiply-by-two callable from the spec example. -/
def mulTwo : Callable := fun t => Except.ok ⟨t.val * 2⟩

/-- Modelled from the spec: a leaky-relu style function that clamps
negative values by a slope (the second, to-be-bound argument); the example
in the spec binds the slope at construction. -/
def leakyRelu (t : Tensor) (slope : Rat) : Except TorchError Tensor :=
  if t.val < 0 then Except.ok ⟨slope * t.val⟩ else Except.ok ⟨t.val⟩

/-- Modelled from the spec: binding an extra argument at construction
captures the value of the supplying variable eagerly, by value, a single
time. `env` gives the value of that variable at each instant and `t0` is
the construction instant; the constructed wrapper closes over the value
`env t0` only. -/
def constructBound (g : Tensor → Rat → Except TorchError Tensor)
    (env : Nat → Rat) (t0 : Nat) : FunctionalImpl :=
  ⟨some (fun x => g x (env t0))⟩

/-- A callable that always fails, used to observe error propagation. -/
def failingCallable : Callable :=
  fun _ => Except.error (TorchError.wrapped "boom")

/-- A variable history whose value is one half at every instant. -/
def envA : Nat → Rat := fun _ => 1 / 2

/-- A variable history that starts at one half and changes to seven after
construction instant zero. -/
def envB : Nat → Rat := fun t => if t = 0 then 1 / 2 else 7

theorem applyOp_state_eq (m : FunctionalImpl) (op : Op) : m.applyOp op = m := by
  cases op <;> rfl

theorem runOps_state_eq (m : FunctionalImpl) (ops : List Op) :
    m.runOps ops = m := by
  induction ops generalizing m with
  | nil => rfl
  | cons op ops ih =>
      show (m.applyOp op).runOps ops = m
      rw [applyOp_state_eq]
      exact ih m

/-- Claim C1: for every callable supplied at construction and every input
tensor, `forward` returns exactly the result of the callable on that
input; in particular wrapping multiply-by-two and invoking with 3 returns
6, and invoking again with 5 returns 10. -/
theorem forward_returns_function_result :
    (∀ (f : Callable) (x : Tensor),
      (FunctionalImpl.mk (some f)).forward x = f x) ∧
    (FunctionalImpl.mk (some mulTwo)).forward ⟨3⟩ = Except.ok ⟨6⟩ ∧
    (FunctionalImpl.mk (some mulTwo)).forward ⟨5⟩ = Except.ok ⟨10⟩ :=
  ⟨fun _ _ => rfl,
   congrArg (fun r => Except.ok (Tensor.mk r)) (by norm_num),
   congrArg (fun r => Except.ok (Tensor.mk r)) (by norm_num)⟩

/-- Claim C2: an extra argument bound at construction is captured eagerly
by value and fixed permanently: both invocations use the value the
supplying variable had at construction instant, and a history that changes
the variable after construction yields an identical wrapper behavior. -/
theorem bound_argument_captured_by_value
    (g : Tensor → Rat → Except TorchError Tensor) (env env2 : Nat → Rat)
    (t0 : Nat) (x1 x2 : Tensor) :
    (constructBound g env t0).forward x1 = g x1 (env t0) ∧
    (constructBound g env t0).forward x2 = g x2 (env t0) ∧
    (env t0 = env2 t0 →
      ∀ x, (constructBound g env t0).forward x
         = (constructBound g env2 t0).forward x) := by
  refine ⟨rfl, rfl, fun h x => ?_⟩
  show g x (env t0) = g x (env2 t0)
  rw [h]

/-- Witness for C2: binding the slope one half at instant 0 of history
`envA`, invocations at inputs negative two and four use the bound slope,
and a history `envB` changing the variable after construction gives the
same result. -/
theorem bound_argument_captured_by_value_holds :
    (constructBound leakyRelu envA 0).forward ⟨-2⟩ = leakyRelu ⟨-2⟩ (envA 0) ∧
    (constructBound leakyRelu envA 0).forward ⟨4⟩ = leakyRelu ⟨4⟩ (envA 0) ∧
    (constructBound leakyRelu envA 0).forward ⟨-2⟩
      = (constructBound leakyRelu envB 0).forward ⟨-2⟩ := by
  have h := bound_argument_captured_by_value leakyRelu envA envB 0 ⟨-2⟩ ⟨4⟩
  exact ⟨h.1, h.2.1, h.2.2 rfl ⟨-2⟩⟩

/-- Claim C3: for every wrapper and every sequence of operations performed
on it, `is_serializable` reports false. -/
theorem is_serializable_always_false (m : FunctionalImpl) (ops : List Op) :
    (m.runOps ops).is_serializable = false :=
  rfl

/-- Witness for C3: a concretely constructed wrapper, after a reset and an
invocation, still reports false. -/
theorem is_serializable_always_false_holds :
    ((FunctionalImpl.mk (some mulTwo)).runOps
      [Op.resetOp, Op.invoke ⟨3⟩]).is_serializable = false :=
  is_serializable_always_false (FunctionalImpl.mk (some mulTwo))
    [Op.resetOp, Op.invoke ⟨3⟩]

/-- Claim C4: reset always succeeds as a no-op: the wrapper state after
reset equals the state before, and forward after reset returns the same
result as forward applied directly. -/
theorem reset_is_noop (m : FunctionalImpl) (x : Tensor) :
    m.reset = m ∧ m.reset.forward x = m.forward x :=
  ⟨rfl, rfl⟩

/-- Claim C5: provided the wrapper holds a callable, forward on any input
is observationally identical to invoking the callable directly, including
on failure: the result is exactly the callable result, and forward raises
an error exactly when the callable does, with the same error. -/
theorem forward_transparent_to_errors (m : FunctionalImpl) (f : Callable)
    (x : Tensor) (h : m.function_ = some f) :
    m.forward x = f x ∧
    (∀ e, m.forward x = Except.error e ↔ f x = Except.error e) := by
  have hfwd : m.forward x = f x := by
    show (match m.function_ with
      | none => Except.error TorchError.badFunctionCall
      | some g => g x) = f x
    rw [h]
  exact ⟨hfwd, fun e => by rw [hfwd]⟩

/-- Witness for C5: a wrapper holding an always-failing callable forwards
exactly that error to the caller. -/
theorem forward_transparent_to_errors_holds :
    (FunctionalImpl.mk (some failingCallable)).forward ⟨0⟩
      = Except.error (TorchError.wrapped "boom") :=
  (forward_transparent_to_errors (FunctionalImpl.mk (some failingCallable))
    failingCallable ⟨0⟩ rfl).1

/-- Counterexample to C6 as stated: constructing the wrapper from the
empty (null) `std::function` succeeds and yields a post-construction state
whose callable member is null, so the unconditional never-null invariant
fails. -/
theorem null_callable_reachable :
    ((FunctionalImpl.mk none).function_).isSome = false :=
  rfl

/-- Claim C6, amended: the wrapper holds exactly one callable member,
fixed at construction and never changed by any sequence of reset, invoke,
describe and serializability-query operations; in particular, whenever
construction is supplied a non-null callable, every reachable state holds
that same non-null callable. -/
theorem callable_fixed_and_nonnull (f : Callable) (ops : List Op) :
    ((FunctionalImpl.mk (some f)).runOps ops).function_ = some f := by
  rw [runOps_state_eq]

/-- Claim C7: forward has no side effect on the wrapper itself: the
wrapper state after the call, including the stored callable, is identical
to the state before, and the result is that of the stored callable. -/
theorem forward_pure_on_wrapper (m : FunctionalImpl) (x : Tensor) :
    (m.forwardState x).1 = m ∧
    (m.forwardState x).1.function_ = m.function_ ∧
    (m.forwardState x).2 = m.forward x :=
  ⟨rfl, rfl, rfl⟩

/-- Claim C8: pretty printing produces the same short fixed human-readable
label for every instance, identifying the module as a function-wrapping
module, regardless of the bound callable. -/
theorem pretty_print_fixed_label (m1 m2 : FunctionalImpl) :
    m1.pretty_print = m2.pretty_print ∧
    m1.pretty_print = "torch::nn::Functional()" :=
  ⟨rfl, rfl⟩

/-- Claim C9: the call operator returns exactly the same result as
forward on every wrapper and every input: the two entry points are
equivalent. -/
theorem call_operator_equals_forward (m : FunctionalImpl) (x : Tensor) :
    m.callOperator x = m.forward x :=
  rfl

/-- Claim C10: construction performs no validation of the supplied
callable: constructing from the empty (null) function succeeds, and the
failure surfaces only later, when forward is invoked on the wrapper
holding the empty callable. -/
theorem construction_unvalidated_failure_deferred :
    (FunctionalImpl.mk none).function_ = none ∧
    ∀ x, (FunctionalImpl.mk none).forward x
      = Except.error TorchError.badFunctionCall :=
  ⟨rfl, fun _ => rfl⟩

end TorchNN
